import Mathlib

/-!
Verification development for the TrendRadar AI module
(`trendradar/ai/client.py` and `trendradar/ai/tools.py`).

The Python code is shallowly embedded:
* the LiteLLM `completion` endpoint is an oracle `Params → RespMessage`
  supplied as a parameter (the provider may answer anything);
* `litellm.supports_function_calling` is a parameter of type
  `Except Unit Bool` (`.ok b` = the probe returned `b`, `.error ()` = the
  probe raised);
* Python numbers are modelled by `Rat` (the code never does float
  arithmetic beyond comparisons, division by 10000, and fixed-point
  rendering);
* `json.loads` is modelled by an executable JSON parser over `List Char`
  (a faithful subset: `\uXXXX` string escapes are not supported —
  no claim depends on them);
* exceptions are `Except`; the ghost list of issued requests / API
  touches is threaded through so that request-count claims are statable.
-/

/-- JSON values (the result universe of `json.loads`). Numbers are
modelled as rationals. -/
inductive Json where
  | null : Json
  | bool : Bool → Json
  | num : Rat → Json
  | str : String → Json
  | arr : List Json → Json
  | obj : List (String × Json) → Json
deriving Repr

/-- The opening-brace character (written numerically). -/
def lcurly : Char := Char.ofNat 123

/-- The closing-brace character (written numerically). -/
def rcurly : Char := Char.ofNat 125

/-- Skip JSON whitespace. -/
def skipWs : List Char → List Char
  | c :: cs => if c = ' ' ∨ c = '\n' ∨ c = '\t' ∨ c = '\r' then skipWs cs else c :: cs
  | [] => []

/-- Parse the remainder of a JSON string literal (after the opening
quote). Common escapes are handled; `\uXXXX` is rejected. -/
def parseStrRest : Nat → List Char → Option (String × List Char)
  | 0, _ => none
  | _ + 1, [] => none
  | fuel + 1, c :: cs =>
    if c = '"' then some ("", cs)
    else if c = '\\' then
      match cs with
      | [] => none
      | e :: cs2 =>
        let d : Option Char :=
          if e = '"' then some '"'
          else if e = '\\' then some '\\'
          else if e = '/' then some '/'
          else if e = 'n' then some '\n'
          else if e = 't' then some '\t'
          else if e = 'r' then some '\r'
          else if e = 'b' then some (Char.ofNat 8)
          else if e = 'f' then some (Char.ofNat 12)
          else none
        match d with
        | some d => (parseStrRest fuel cs2).map (fun p => (d.toString ++ p.1, p.2))
        | none => none
    else (parseStrRest fuel cs).map (fun p => (c.toString ++ p.1, p.2))

/-- Parse a run of decimal digits, returning their value and count. -/
def parseDigits : List Char → Nat → Nat → (Nat × Nat × List Char)
  | c :: cs, acc, n =>
    if c.isDigit then parseDigits cs (acc * 10 + (c.toNat - 48)) (n + 1)
    else (acc, n, c :: cs)
  | [], acc, n => (acc, n, [])

/-- Parse a JSON number (sign, integer part, optional fraction and
exponent). -/
def parseNum (cs : List Char) : Option (Rat × List Char) :=
  let (sign, cs) : Rat × List Char :=
    match cs with
    | c :: rest => if c = '-' then (-1, rest) else (1, cs)
    | [] => (1, [])
  match cs with
  | c :: _ =>
    if c.isDigit then
      let (ip, _, cs) := parseDigits cs 0 0
      let (frac, cs) : Rat × List Char :=
        match cs with
        | d :: rest =>
          if d = '.' then
            let (fp, fn, rest') := parseDigits rest 0 0
            ((fp : Rat) / ((10 : Rat) ^ fn), rest')
          else (0, d :: rest)
        | [] => (0, [])
      let base : Rat := (ip : Rat) + frac
      match cs with
      | e :: rest =>
        if e = 'e' ∨ e = 'E' then
          let (esign, rest) : Bool × List Char :=
            match rest with
            | s :: r2 => if s = '-' then (true, r2) else if s = '+' then (false, r2) else (false, s :: r2)
            | [] => (false, [])
          let (ev, en, rest') := parseDigits rest 0 0
          if en = 0 then none
          else
            let p : Rat := (10 : Rat) ^ ev
            some (sign * (if esign then base / p else base * p), rest')
        else some (sign * base, e :: rest)
      | [] => some (sign * base, [])
    else none
  | [] => none

mutual

/-- Parse one JSON value. -/
def parseVal : Nat → List Char → Option (Json × List Char)
  | 0, _ => none
  | fuel + 1, cs =>
    match skipWs cs with
    | 'n' :: 'u' :: 'l' :: 'l' :: rest => some (.null, rest)
    | 't' :: 'r' :: 'u' :: 'e' :: rest => some (.bool true, rest)
    | 'f' :: 'a' :: 'l' :: 's' :: 'e' :: rest => some (.bool false, rest)
    | c :: rest =>
      if c = '"' then (parseStrRest (rest.length + 1) rest).map (fun p => (.str p.1, p.2))
      else if c = '[' then
        match skipWs rest with
        | d :: rest2 =>
          if d = ']' then some (.arr [], rest2)
          else (parseArrItems fuel (d :: rest2)).map (fun p => (.arr p.1, p.2))
        | [] => none
      else if c = lcurly then
        match skipWs rest with
        | d :: rest2 =>
          if d = rcurly then some (.obj [], rest2)
          else (parseObjItems fuel (d :: rest2)).map (fun p => (.obj p.1, p.2))
        | [] => none
      else parseNum (c :: rest) |>.map (fun p => (.num p.1, p.2))
    | [] => none

/-- Parse the non-empty items of a JSON array. -/
def parseArrItems : Nat → List Char → Option (List Json × List Char)
  | 0, _ => none
  | fuel + 1, cs =>
    match parseVal fuel cs with
    | none => none
    | some (v, rest) =>
      match skipWs rest with
      | c :: rest2 =>
        if c = ',' then (parseArrItems fuel rest2).map (fun p => (v :: p.1, p.2))
        else if c = ']' then some ([v], rest2)
        else none
      | [] => none

/-- Parse the non-empty members of a JSON object. -/
def parseObjItems : Nat → List Char → Option (List (String × Json) × List Char)
  | 0, _ => none
  | fuel + 1, cs =>
    match skipWs cs with
    | c :: rest =>
      if c = '"' then
        match parseStrRest (rest.length + 1) rest with
        | none => none
        | some (key, rest2) =>
          match skipWs rest2 with
          | d :: rest3 =>
            if d = ':' then
              match parseVal fuel rest3 with
              | none => none
              | some (v, rest4) =>
                match skipWs rest4 with
                | e :: rest5 =>
                  if e = ',' then (parseObjItems fuel rest5).map (fun p => ((key, v) :: p.1, p.2))
                  else if e = rcurly then some ([(key, v)], rest5)
                  else none
                | [] => none
            else none
          | [] => none
      else none
    | [] => none

end

/-- `json.loads` applied to the payload of a tool call: `none` models a
raised exception (`TypeError` on an absent/null payload,
`JSONDecodeError` on malformed text). -/
def jsonLoads : Option String → Option Json
  | none => none
  | some s =>
    match parseVal (2 * s.data.length + 2) s.data with
    | some (j, rest) => if skipWs rest = [] then some j else none
    | none => none

/-! ### The AI client data model (`trendradar/ai/client.py`) -/

/-- A tool call's `function` field: name plus the raw JSON argument text
(`none` models `null`). -/
structure FuncCall where
  name : String
  arguments : Option String
deriving Repr

/-- One tool call requested by the model. -/
structure ToolCall where
  id : String
  function : FuncCall
deriving Repr

/-- The message of the provider's first choice: `content` may be null;
`tool_calls` may be absent (`none`) or an ordered list. -/
structure RespMessage where
  content : Option String
  tool_calls : Option (List ToolCall)
deriving Repr

/-- Python truthiness of `response_message.tool_calls` (`None` and `[]`
are both falsy). -/
def RespMessage.hasCalls (rm : RespMessage) : Bool :=
  match rm.tool_calls with
  | none => false
  | some l => !l.isEmpty

/-- The tool calls as a plain list (empty when absent). -/
def RespMessage.calls (rm : RespMessage) : List ToolCall :=
  rm.tool_calls.getD []

/-- A conversation message: a caller-supplied role/content dict, the
appended assistant tool-requesting response message, or an appended
tool-result dict (whose `role` field is `"tool"`). -/
inductive Message where
  | plain : String → Option String → Message
  | assistantTool : RespMessage → Message
  | toolResult : (tool_call_id : String) → (name : String) → (content : String) → Message
deriving Repr

/-- The `role` field of a conversation message. -/
def Message.role : Message → String
  | .plain r _ => r
  | .assistantTool _ => "assistant"
  | .toolResult _ _ _ => "tool"

/-- The `AIClient.__init__` configuration fields. -/
structure AIConfig where
  model : String
  api_key : String
  api_base : String
  temperature : Rat
  max_tokens : Int
  timeout : Rat
  num_retries : Int
  fallback_models : List String
deriving Repr

/-- The `**kwargs` override dict: the keys `_build_params` reads, plus
the remaining passthrough entries (modelled as string-valued). A
well-formed `Kwargs` does not repeat the structured keys in `extra`
(a Python dict cannot). -/
structure Kwargs where
  temperature : Option Rat := none
  timeout : Option Rat := none
  num_retries : Option Int := none
  max_tokens : Option Int := none
  extra : List (String × String) := []
deriving Repr

/-- The request dict handed to `litellm.completion`: the structured keys
built by `_build_params`, optional keys as `Option`, plus passthrough
extras and (for the tool-calling loop) `tools` / `tool_choice`. -/
structure Params where
  model : String
  messages : List Message
  temperature : Rat
  timeout : Rat
  num_retries : Int
  api_key : Option String := none
  api_base : Option String := none
  max_tokens : Option Int := none
  fallbacks : Option (List String) := none
  extra : List (String × String) := []
  tools : Option (List Json) := none
  tool_choice : Option String := none
deriving Repr

/-- The keys present in the params dict after the conditional inserts of
`_build_params`, used by the `if key not in params` merge loop. -/
def presentKeys (cfg : AIConfig) (kw : Kwargs) : List String :=
  ["model", "messages", "temperature", "timeout", "num_retries"]
    ++ (if cfg.api_key ≠ "" then ["api_key"] else [])
    ++ (if cfg.api_base ≠ "" then ["api_base"] else [])
    ++ (if kw.max_tokens.getD cfg.max_tokens > 0 then ["max_tokens"] else [])
    ++ (if cfg.fallback_models ≠ [] then ["fallbacks"] else [])

/-- `AIClient._build_params`: defaults overridden by `kwargs`; `api_key`
/ `api_base` / `fallbacks` only when configured truthy; `max_tokens`
only when the resolved value is truthy and positive (otherwise a
`max_tokens` override still lands in the dict through the merge loop);
remaining kwargs merged when their key is not already present. -/
def buildParams (cfg : AIConfig) (messages : List Message) (kw : Kwargs) : Params :=
  let maxTokens := kw.max_tokens.getD cfg.max_tokens
  { model := cfg.model
    messages := messages
    temperature := kw.temperature.getD cfg.temperature
    timeout := kw.timeout.getD cfg.timeout
    num_retries := kw.num_retries.getD cfg.num_retries
    api_key := if cfg.api_key ≠ "" then some cfg.api_key else none
    api_base := if cfg.api_base ≠ "" then some cfg.api_base else none
    max_tokens := if maxTokens > 0 then some maxTokens else kw.max_tokens
    fallbacks := if cfg.fallback_models ≠ [] then some cfg.fallback_models else none
    extra := kw.extra.filter (fun kv => ¬ (presentKeys cfg kw).contains kv.1) }

/-- `AIClient.chat`: one completion request; the first choice's content
is returned exactly as received (it may be null). -/
def chat (cfg : AIConfig) (oracle : Params → RespMessage)
    (messages : List Message) (kw : Kwargs) : Option String :=
  (oracle (buildParams cfg messages kw)).content

/-- `json.loads(tool_call.function.arguments)` with the
`except (json.JSONDecodeError, TypeError): func_args = {}` recovery:
a parse failure yields the empty argument map. -/
def parsedArgs (a : Option String) : Json :=
  (jsonLoads a).getD (.obj [])

/-- The tool-result message appended for one tool call: the originating
call id, the function name, and the executor's returned text. -/
def mkToolResultMsg (executor : String → Json → String) (tc : ToolCall) : Message :=
  .toolResult tc.id tc.function.name
    (executor tc.function.name (parsedArgs tc.function.arguments))

/-- The request of one tool-calling round: `_build_params` output plus
`params["tools"] = tools` and `params["tool_choice"] = "auto"`. -/
def roundParams (cfg : AIConfig) (tools : List Json) (kw : Kwargs) (msgs : List Message) : Params :=
  { buildParams cfg msgs kw with tools := some tools, tool_choice := some "auto" }

/-- The messages appended during one round that requested tools: the
assistant's tool-requesting message followed by one tool-result message
per requested call, in request order. -/
def roundBlock (executor : String → Json → String) (rm : RespMessage) : List Message :=
  Message.assistantTool rm :: rm.calls.map (mkToolResultMsg executor)

/-- The result of one `chat_with_tools` invocation, with the ghost trace
of issued requests and the loop's final private conversation. -/
structure LoopOut where
  result : Option String
  requests : List Params
  finalMsgs : List Message
deriving Repr

/-- The `for round_idx in range(max_rounds)` loop of
`AIClient.chat_with_tools`, by remaining rounds. Fuel `0` is the
post-budget final request without tools; a round issues a request with
the tool schema and `tool_choice = "auto"`, returns the content (null
coerced to `""`) when the response carries no tool calls, and otherwise
appends the assistant message and one tool-result message per call
before recursing. -/
def chatToolsGo (cfg : AIConfig) (oracle : Params → RespMessage)
    (tools : List Json) (executor : String → Json → String) (kw : Kwargs) :
    Nat → List Message → LoopOut
  | 0, msgs =>
    let params := buildParams cfg msgs kw
    ⟨some ((oracle params).content.getD ""), [params], msgs⟩
  | n + 1, msgs =>
    let params := roundParams cfg tools kw msgs
    let rm := oracle params
    if rm.hasCalls then
      let rest := chatToolsGo cfg oracle tools executor kw n (msgs ++ roundBlock executor rm)
      ⟨rest.result, params :: rest.requests, rest.finalMsgs⟩
    else
      ⟨some (rm.content.getD ""), [params], msgs⟩

/-- `AIClient.chat_with_tools` with its ghost trace. `probe` is the
outcome of `litellm.supports_function_calling(model)`: on `.ok false`
the call degrades to `chat()` (one request, no schema); on `.ok true`
or a raised probe the loop runs on a private copy of the caller's
messages. -/
def chatWithToolsFull (cfg : AIConfig) (oracle : Params → RespMessage)
    (probe : Except Unit Bool) (messages : List Message) (tools : List Json)
    (executor : String → Json → String) (max_rounds : Nat) (kw : Kwargs) : LoopOut :=
  match probe with
  | .ok false => ⟨chat cfg oracle messages kw, [buildParams cfg messages kw], messages⟩
  | _ => chatToolsGo cfg oracle tools executor kw max_rounds messages

/-- `AIClient.chat_with_tools`'s return value. -/
def chatWithTools (cfg : AIConfig) (oracle : Params → RespMessage)
    (probe : Except Unit Bool) (messages : List Message) (tools : List Json)
    (executor : String → Json → String) (max_rounds : Nat) (kw : Kwargs) : Option String :=
  (chatWithToolsFull cfg oracle probe messages tools executor max_rounds kw).result

/-- `AIClient.validate_config`. -/
def validateConfig (cfg : AIConfig) : Bool × String :=
  if cfg.model = "" then
    (false, "未配置 AI 模型（model）")
  else if cfg.api_key = "" then
    (false, "未配置 AI API Key，请在 config.yaml 或环境变量 AI_API_KEY 中设置")
  else if ¬ cfg.model.data.contains '/' then
    (false, "模型格式错误: " ++ cfg.model ++ "，应为 \x27provider/model\x27 格式（如 \x27deepseek/deepseek-chat\x27）")
  else
    (true, "")

/-! ### The Tushare tool executor data model (`trendradar/ai/tools.py`)

Pandas cell values are modelled by `Cell` (missing/`None`, a number, or
a string); a dataframe is an optional list of rows (`none` = the API
returned `None`). Python exceptions are `PyExc`; the external Tushare
endpoint is a parameter `TsEnv.query`; every access to the lazily
constructed `self.api` handle is recorded in the ghost `touches` list. -/

/-- A pandas cell: `None`, a number (floats modelled as rationals), or a
string. -/
inductive Cell where
  | null : Cell
  | num : Rat → Cell
  | str : String → Cell
deriving Repr, DecidableEq

/-- A dataframe row, as the association of column label to cell. -/
abbrev Row := List (String × Cell)

/-- A Python exception as `execute` distinguishes it: `ImportError`, or
any other exception with its type name and message. -/
inductive PyExc where
  | importError : PyExc
  | other : (ty : String) → (msg : String) → PyExc
deriving Repr, DecidableEq

/-- One query against the Tushare pro API: endpoint name, keyword
parameters in insertion order, and the `fields` argument when passed. -/
inductive TsQuery where
  | ths_daily : List (String × String) → String → TsQuery
  | ths_member : List (String × String) → TsQuery
  | index_daily : List (String × String) → TsQuery
  | daily_basic : List (String × String) → String → TsQuery
  | daily : List (String × String) → TsQuery
  | limit_list_d : List (String × String) → String → TsQuery
  | top_list : List (String × String) → String → TsQuery
  | moneyflow : List (String × String) → String → TsQuery
deriving Repr, DecidableEq

/-- The executor's environment: whether the `tushare` package can be
imported, and the behaviour of the external endpoint (which may raise or
return `None` / a dataframe). -/
structure TsEnv where
  tushareInstalled : Bool
  query : TsQuery → Except PyExc (Option (List Row))

/-- One `self.api.<endpoint>(...)` access: importing `tushare` inside
the lazy `api` property raises `ImportError` when the package is
missing; otherwise the endpoint is queried. -/
def apiFetch (env : TsEnv) (q : TsQuery) : Except PyExc (Option (List Row)) :=
  if env.tushareInstalled then env.query q else .error .importError

/-- A handler's outcome: its return value or raised exception, plus the
ghost list of API accesses it performed. -/
structure HRes where
  out : Except PyExc String
  touches : List TsQuery
deriving Repr

/-- `row.get(key, default)`. -/
def rowGet (r : Row) (k : String) (d : Cell) : Cell := (r.lookup k).getD d

/-- Python truthiness of a cell. -/
def cellTruthy : Cell → Bool
  | .null => false
  | .num q => q != 0
  | .str s => s != ""

/-- `df is None or df.empty`. -/
def dfEmpty : Option (List Row) → Bool
  | none => true
  | some l => l.isEmpty

/-- `"-" * n`. -/
def dashes (n : Nat) : String := String.mk (List.replicate n '-')

/-- Pad a digit string with leading zeros to width `w`. -/
def padZeros (w : Nat) (s : String) : String :=
  String.mk (List.replicate (w - s.length) '0') ++ s

/-- Python's `f"{v:.precf}"` fixed-point rendering of a number: the
magnitude `|q| * 10 ^ prec` is rounded to the nearest integer with ties
to even, computed directly on the numerator and denominator (for
`|q| * 10 ^ prec = s / d` the floor is `s / d`, and the fractional part
compares to one half as `2 * (s % d)` compares to `d`). -/
def fmtFixed (prec : Nat) (q : Rat) : String :=
  let s := q.num.natAbs * 10 ^ prec
  let d := q.den
  let ip := s / d
  let m := if 2 * (s % d) < d then ip
           else if d < 2 * (s % d) then ip + 1
           else if ip % 2 = 0 then ip else ip + 1
  let base := 10 ^ prec
  (if q.num < 0 then "-" else "") ++ toString (m / base)
    ++ (if prec = 0 then "" else "." ++ padZeros prec (toString (m % base)))

/-- Smallest `k` with `den ∣ 10 ^ k` (floats always have one). -/
def pow10Exp (den : Nat) : Option Nat :=
  (List.range 65).find? (fun k => 10 ^ k % den = 0)

/-- Strip trailing `'0'` characters. -/
def stripTrailingZeros (s : String) : String :=
  String.mk (s.data.reverse.dropWhile (fun c => c = '0')).reverse

/-- `str()` of a float modelled as a rational: the minimal decimal form
with at least one fractional digit (`str(3.0) = "3.0"`). -/
def floatRepr (q : Rat) : String :=
  match pow10Exp q.den with
  | some k =>
    let scaled := q.num.natAbs * 10 ^ k / q.den
    let frac := stripTrailingZeros (padZeros k (toString (scaled % 10 ^ k)))
    (if q.num < 0 then "-" else "") ++ toString (scaled / 10 ^ k) ++ "."
      ++ (if frac = "" then "0" else frac)
  | none => toString q.num ++ "/" ++ toString q.den

/-- `str()` of a cell. -/
def pyStr : Cell → String
  | .null => "None"
  | .num q => floatRepr q
  | .str s => s

/-- `float()` applied to a string (numeric literals only; `inf`/`nan`
are not modelled — no repository string reaches them). -/
def parseFloatStr (s : String) : Option Rat :=
  match parseNum (skipWs s.data) with
  | some (q, rest) => if skipWs rest = [] then some q else none
  | none => none

/-- `float()` applied to a cell; `none` models a raised
`ValueError`/`TypeError`. -/
def pyFloat : Cell → Option Rat
  | .num q => some q
  | .str s => parseFloatStr s
  | .null => none

/-- `TushareToolExecutor._fmt_amount`: amounts in 万, rescaled to 亿
when `abs(v) >= 10000`. -/
def fmtAmount (value : Cell) : String :=
  match value with
  | .null => "-"
  | v =>
    match pyFloat v with
    | some q => if 10000 ≤ |q| then fmtFixed 2 (q / 10000) ++ "亿" else fmtFixed 0 q ++ "万"
    | none => pyStr v

/-- `TushareToolExecutor._fmt`: two decimal places, `None` as `"-"`. -/
def fmtNum (value : Cell) : String :=
  match value with
  | .null => "-"
  | v =>
    match pyFloat v with
    | some q => fmtFixed 2 q
    | none => pyStr v

/-- `TushareToolExecutor._fmt_mv`: market values in 万元, rescaled to
亿元 when `v >= 10000`. -/
def fmtMv (value : Cell) : String :=
  match value with
  | .null => "-"
  | v =>
    match pyFloat v with
    | some q => if 10000 ≤ q then fmtFixed 2 (q / 10000) ++ " 亿元" else fmtFixed 2 q ++ " 万元"
    | none => pyStr v

/-- The `f"{row.get(k, 0):.precf}" if row.get(k) is not None else "-"`
pattern (a present non-null, non-numeric cell makes the format call
raise). -/
def fmtCond (prec : Nat) (r : Row) (k : String) : Except PyExc String :=
  match rowGet r k .null with
  | .null => .ok "-"
  | .num q => .ok (fmtFixed prec q)
  | .str _ => .error (.other "TypeError" "unsupported format string passed to str.__format__")

/-- `row.get(k, "-") or "-"`, rendered. -/
def cellOrDash (r : Row) (k : String) : String :=
  let c := rowGet r k (.str "-")
  if cellTruthy c then pyStr c else "-"

/-- `value or 0` on a cell. -/
def orZero (c : Cell) : Cell := if cellTruthy c then c else .num 0

/-- Python `-` on two values (non-numeric operands raise `TypeError`). -/
def cellSub : Cell → Cell → Except PyExc Cell
  | .num a, .num b => .ok (.num (a - b))
  | _, _ => .error (.other "TypeError" "unsupported operand type(s) for -")

/-- Python `+` on two values (non-numeric operands raise `TypeError`). -/
def cellAdd : Cell → Cell → Except PyExc Cell
  | .num a, .num b => .ok (.num (a + b))
  | _, _ => .error (.other "TypeError" "unsupported operand type(s) for +")

/-- The `fields` string of `get_concept_sector_daily`. -/
def csdFields : String := "ts_code,trade_date,open,close,high,low,pct_change,vol,turnover_rate"

/-- `TushareToolExecutor.get_concept_sector_daily`. -/
def getConceptSectorDaily (env : TsEnv) (ts_code : String) (trade_date : String) : HRes :=
  let params := (if ts_code ≠ "" then [("ts_code", ts_code)] else [])
    ++ (if trade_date ≠ "" then [("trade_date", trade_date)] else [])
  if params.isEmpty then
    ⟨.ok "错误：请至少提供板块代码（ts_code）或交易日期（trade_date）之一。", []⟩
  else
    let q := TsQuery.ths_daily params csdFields
    ⟨(match apiFetch env q with
      | .error e => .error e
      | .ok df? =>
        if dfEmpty df? then
          .ok ("未查询到数据（ts_code=" ++ ts_code ++ ", trade_date=" ++ trade_date
            ++ "）。可能是非交易日或代码有误。")
        else
          let df := (df?.getD []).take 20
          match df.mapM (fun r => do
            let pct ← fmtCond 2 r "pct_change"
            let vol ← fmtCond 0 r "vol"
            let tr ← fmtCond 2 r "turnover_rate"
            pure (pyStr (rowGet r "ts_code" (.str "-")) ++ " | "
              ++ pyStr (rowGet r "trade_date" (.str "-")) ++ " | "
              ++ pyStr (rowGet r "open" (.str "-")) ++ " | "
              ++ pyStr (rowGet r "close" (.str "-")) ++ " | "
              ++ pyStr (rowGet r "high" (.str "-")) ++ " | "
              ++ pyStr (rowGet r "low" (.str "-")) ++ " | "
              ++ pct ++ " | " ++ vol ++ " | " ++ tr)) with
          | .error e => .error e
          | .ok ls =>
            .ok (String.intercalate "\n"
              (("同花顺概念板块日线行情（共 " ++ toString df.length ++ " 条）：")
                :: "板块代码 | 交易日 | 开盘 | 收盘 | 最高 | 最低 | 涨跌幅(%) | 成交量 | 换手率(%)"
                :: dashes 80 :: ls))), [q]⟩

/-- `TushareToolExecutor.get_concept_sector_members`. -/
def getConceptSectorMembers (env : TsEnv) (ts_code : String) : HRes :=
  let q := TsQuery.ths_member [("ts_code", ts_code)]
  ⟨(match apiFetch env q with
    | .error e => .error e
    | .ok df? =>
      if dfEmpty df? then
        .ok ("未查询到板块 " ++ ts_code ++ " 的成分股数据。请检查板块代码是否正确。")
      else
        let df := df?.getD []
        .ok (String.intercalate "\n"
          (("板块 " ++ ts_code ++ " 成分股列表（共 " ++ toString df.length ++ " 只）：")
            :: "股票代码 | 股票名称" :: dashes 40
            :: df.map (fun r => pyStr (rowGet r "con_code" (.str "-")) ++ " | "
              ++ pyStr (rowGet r "con_name" (.str "-")))))), [q]⟩

/-- `TushareToolExecutor.get_index_daily`. -/
def getIndexDaily (env : TsEnv) (ts_code : String) (trade_date : String) : HRes :=
  let params := [("ts_code", ts_code)]
    ++ (if trade_date ≠ "" then [("trade_date", trade_date)] else [])
  let q := TsQuery.index_daily params
  ⟨(match apiFetch env q with
    | .error e => .error e
    | .ok df? =>
      if dfEmpty df? then
        .ok ("未查询到指数 " ++ ts_code ++ " 的行情数据。可能是非交易日或代码有误。")
      else
        let df := (df?.getD []).take 10
        match df.mapM (fun r => do
          let pct ← fmtCond 2 r "pct_chg"
          let change ← fmtCond 2 r "change"
          let vol ← fmtCond 0 r "vol"
          let amount ← fmtCond 0 r "amount"
          pure (pyStr (rowGet r "trade_date" (.str "-")) ++ " | "
            ++ pyStr (rowGet r "open" (.str "-")) ++ " | "
            ++ pyStr (rowGet r "close" (.str "-")) ++ " | "
            ++ pyStr (rowGet r "high" (.str "-")) ++ " | "
            ++ pyStr (rowGet r "low" (.str "-")) ++ " | "
            ++ change ++ " | " ++ pct ++ " | " ++ vol ++ " | " ++ amount)) with
        | .error e => .error e
        | .ok ls =>
          .ok (String.intercalate "\n"
            (("指数 " ++ ts_code ++ " 日线行情（共 " ++ toString df.length ++ " 条）：")
              :: "交易日 | 开盘 | 收盘 | 最高 | 最低 | 涨跌点 | 涨跌幅(%) | 成交量(手) | 成交额(千元)"
              :: dashes 100 :: ls))), [q]⟩

/-- The `fields` string of `get_stock_daily_basic`. -/
def sdbFields : String :=
  "ts_code,trade_date,close,turnover_rate,turnover_rate_f,volume_ratio,pe,pe_ttm,pb,ps,ps_ttm,dv_ratio,dv_ttm,total_share,float_share,free_share,total_mv,circ_mv"

/-- `TushareToolExecutor.get_stock_daily_basic` (all of its per-row
formatting is exception-free). -/
def getStockDailyBasic (env : TsEnv) (ts_code : String) (trade_date : String) : HRes :=
  let params := [("ts_code", ts_code)]
    ++ (if trade_date ≠ "" then [("trade_date", trade_date)] else [])
  let q := TsQuery.daily_basic params sdbFields
  ⟨(match apiFetch env q with
    | .error e => .error e
    | .ok df? =>
      if dfEmpty df? then
        .ok ("未查询到股票 " ++ ts_code ++ " 的每日指标数据。可能是非交易日或代码有误。")
      else
        let df := (df?.getD []).take 5
        .ok (String.intercalate "\n"
          (("股票 " ++ ts_code ++ " 每日指标（共 " ++ toString df.length ++ " 条）：")
            :: (df.map (fun r =>
              [("\n--- " ++ pyStr (rowGet r "trade_date" (.str "-")) ++ " ---"),
               "收盘价: " ++ pyStr (rowGet r "close" (.str "-")),
               "换手率: " ++ fmtNum (rowGet r "turnover_rate" .null) ++ "%",
               "换手率(自由流通): " ++ fmtNum (rowGet r "turnover_rate_f" .null) ++ "%",
               "量比: " ++ fmtNum (rowGet r "volume_ratio" .null),
               "市盈率(PE): " ++ fmtNum (rowGet r "pe" .null),
               "市盈率(PE_TTM): " ++ fmtNum (rowGet r "pe_ttm" .null),
               "市净率(PB): " ++ fmtNum (rowGet r "pb" .null),
               "市销率(PS): " ++ fmtNum (rowGet r "ps" .null),
               "股息率: " ++ fmtNum (rowGet r "dv_ratio" .null) ++ "%",
               "总市值: " ++ fmtMv (rowGet r "total_mv" .null),
               "流通市值: " ++ fmtMv (rowGet r "circ_mv" .null)])).flatten))), [q]⟩

/-- `TushareToolExecutor.get_stock_daily`. -/
def getStockDaily (env : TsEnv) (ts_code : String) (trade_date : String) : HRes :=
  let params := [("ts_code", ts_code)]
    ++ (if trade_date ≠ "" then [("trade_date", trade_date)] else [])
  let q := TsQuery.daily params
  ⟨(match apiFetch env q with
    | .error e => .error e
    | .ok df? =>
      if dfEmpty df? then
        .ok ("未查询到股票 " ++ ts_code ++ " 的日线行情数据。可能是非交易日或代码有误。")
      else
        let df := (df?.getD []).take 10
        match df.mapM (fun r => do
          let pct ← fmtCond 2 r "pct_chg"
          let vol ← fmtCond 0 r "vol"
          let amount ← fmtCond 0 r "amount"
          pure (pyStr (rowGet r "trade_date" (.str "-")) ++ " | "
            ++ pyStr (rowGet r "open" (.str "-")) ++ " | "
            ++ pyStr (rowGet r "close" (.str "-")) ++ " | "
            ++ pyStr (rowGet r "high" (.str "-")) ++ " | "
            ++ pyStr (rowGet r "low" (.str "-")) ++ " | "
            ++ pyStr (rowGet r "pre_close" (.str "-")) ++ " | "
            ++ pct ++ " | " ++ vol ++ " | " ++ amount)) with
        | .error e => .error e
        | .ok ls =>
          .ok (String.intercalate "\n"
            (("股票 " ++ ts_code ++ " 日线行情（共 " ++ toString df.length ++ " 条）：")
              :: "交易日 | 开盘 | 收盘 | 最高 | 最低 | 昨收 | 涨跌幅(%) | 成交量(手) | 成交额(千元)"
              :: dashes 100 :: ls))), [q]⟩

/-- The `fields` string of `get_limit_list`. -/
def llFields : String :=
  "ts_code,trade_date,name,close,pct_chg,amp,fc_ratio,fl_ratio,fd_amount,first_time,last_time,open_times,strth,limit"

/-- `limit_label.get(row.get("limit", ""), row.get("limit", "-"))`. -/
def limitLabel (r : Row) : String :=
  match rowGet r "limit" (.str "") with
  | .str "U" => "涨停"
  | .str "D" => "跌停"
  | .str "Z" => "炸板"
  | _ => pyStr (rowGet r "limit" (.str "-"))

/-- `TushareToolExecutor.get_limit_list`. -/
def getLimitList (env : TsEnv) (trade_date : String) (limit_type : String) (ts_code : String) : HRes :=
  let params := (if trade_date ≠ "" then [("trade_date", trade_date)] else [])
    ++ (if limit_type ≠ "" then [("limit_type", limit_type)] else [])
    ++ (if ts_code ≠ "" then [("ts_code", ts_code)] else [])
  if params.isEmpty then
    ⟨.ok "错误：请至少提供交易日期（trade_date）或股票代码（ts_code）之一。", []⟩
  else
    let q := TsQuery.limit_list_d params llFields
    ⟨(match apiFetch env q with
      | .error e => .error e
      | .ok df? =>
        if dfEmpty df? then
          .ok ("未查询到涨跌停数据（trade_date=" ++ trade_date ++ ", limit_type=" ++ limit_type
            ++ "）。可能是非交易日。")
        else
          let df := (df?.getD []).take 50
          match df.mapM (fun r => do
            let pct ← fmtCond 2 r "pct_chg"
            let fc ← fmtCond 2 r "fc_ratio"
            let fd ← fmtCond 0 r "fd_amount"
            let ft := cellOrDash r "first_time"
            let ot := pyStr (rowGet r "open_times" (.str "-"))
            let strth ← fmtCond 1 r "strth"
            let lt := limitLabel r
            pure (pyStr (rowGet r "ts_code" (.str "-")) ++ " | "
              ++ pyStr (rowGet r "name" (.str "-")) ++ " | "
              ++ pyStr (rowGet r "close" (.str "-")) ++ " | "
              ++ pct ++ " | " ++ fc ++ " | " ++ fd ++ " | "
              ++ ft ++ " | " ++ ot ++ " | " ++ strth ++ " | " ++ lt)) with
          | .error e => .error e
          | .ok ls =>
            .ok (String.intercalate "\n"
              (("涨跌停统计（共 " ++ toString df.length ++ " 条）：")
                :: "代码 | 名称 | 收盘 | 涨跌幅(%) | 封单比 | 封单额(万) | 首封时间 | 开板次数 | 强度 | 类型"
                :: dashes 110 :: ls))), [q]⟩

/-- The `fields` string of `get_top_list`. -/
def tlFields : String :=
  "ts_code,trade_date,name,close,pct_change,turnover_rate,amount,l_sell,l_buy,l_amount,net_amount,net_rate,amount_rate,float_values,reason"

/-- `TushareToolExecutor.get_top_list`. -/
def getTopList (env : TsEnv) (trade_date : String) (ts_code : String) : HRes :=
  let params := (if trade_date ≠ "" then [("trade_date", trade_date)] else [])
    ++ (if ts_code ≠ "" then [("ts_code", ts_code)] else [])
  if params.isEmpty then
    ⟨.ok "错误：请至少提供交易日期（trade_date）或股票代码（ts_code）之一。", []⟩
  else
    let q := TsQuery.top_list params tlFields
    ⟨(match apiFetch env q with
      | .error e => .error e
      | .ok df? =>
        if dfEmpty df? then
          .ok ("未查询到龙虎榜数据（trade_date=" ++ trade_date ++ ", ts_code=" ++ ts_code
            ++ "）。可能是非交易日或当日无龙虎榜。")
        else
          let df := (df?.getD []).take 30
          match df.mapM (fun r => do
            let pct ← fmtCond 2 r "pct_change"
            let l_buy := fmtAmount (rowGet r "l_buy" .null)
            let l_sell := fmtAmount (rowGet r "l_sell" .null)
            let net := fmtAmount (rowGet r "net_amount" .null)
            let net_rate ← fmtCond 2 r "net_rate"
            let amt_rate ← fmtCond 2 r "amount_rate"
            let reason := cellOrDash r "reason"
            pure (pyStr (rowGet r "ts_code" (.str "-")) ++ " | "
              ++ pyStr (rowGet r "name" (.str "-")) ++ " | "
              ++ pyStr (rowGet r "close" (.str "-")) ++ " | "
              ++ pct ++ " | " ++ l_buy ++ " | " ++ l_sell ++ " | "
              ++ net ++ " | " ++ net_rate ++ " | " ++ amt_rate ++ " | " ++ reason)) with
          | .error e => .error e
          | .ok ls =>
            .ok (String.intercalate "\n"
              (("龙虎榜明细（共 " ++ toString df.length ++ " 条）：")
                :: ("代码 | 名称 | 收盘 | 涨跌幅(%) | 龙虎榜买入(万) | 龙虎榜卖出(万) | "
                  ++ "龙虎榜净买入(万) | 净买入占比(%) | 成交额占比(%) | 上榜原因")
                :: dashes 140 :: ls))), [q]⟩

/-- The `fields` string of `get_moneyflow`. -/
def mfFields : String :=
  "ts_code,trade_date,buy_sm_amount,sell_sm_amount,buy_md_amount,sell_md_amount,buy_lg_amount,sell_lg_amount,buy_elg_amount,sell_elg_amount,net_mf_amount"

/-- `TushareToolExecutor.get_moneyflow`. -/
def getMoneyflow (env : TsEnv) (ts_code : String) (trade_date : String) : HRes :=
  let params := [("ts_code", ts_code)]
    ++ (if trade_date ≠ "" then [("trade_date", trade_date)] else [])
  let q := TsQuery.moneyflow params mfFields
  ⟨(match apiFetch env q with
    | .error e => .error e
    | .ok df? =>
      if dfEmpty df? then
        .ok ("未查询到股票 " ++ ts_code ++ " 的资金流向数据。可能是非交易日或代码有误。")
      else
        let df := (df?.getD []).take 5
        match df.mapM (fun r => do
          let buy_sm := orZero (rowGet r "buy_sm_amount" .null)
          let sell_sm := orZero (rowGet r "sell_sm_amount" .null)
          let buy_md := orZero (rowGet r "buy_md_amount" .null)
          let sell_md := orZero (rowGet r "sell_md_amount" .null)
          let buy_lg := orZero (rowGet r "buy_lg_amount" .null)
          let sell_lg := orZero (rowGet r "sell_lg_amount" .null)
          let buy_elg := orZero (rowGet r "buy_elg_amount" .null)
          let sell_elg := orZero (rowGet r "sell_elg_amount" .null)
          let net_sm ← cellSub buy_sm sell_sm
          let net_md ← cellSub buy_md sell_md
          let net_lg ← cellSub buy_lg sell_lg
          let net_elg ← cellSub buy_elg sell_elg
          let net_main ← cellAdd net_lg net_elg
          pure [("\n--- " ++ pyStr (rowGet r "trade_date" (.str "-")) ++ " ---"),
            "小单: 买入 " ++ fmtAmount buy_sm ++ " / 卖出 " ++ fmtAmount sell_sm
              ++ " / 净额 " ++ fmtAmount net_sm,
            "中单: 买入 " ++ fmtAmount buy_md ++ " / 卖出 " ++ fmtAmount sell_md
              ++ " / 净额 " ++ fmtAmount net_md,
            "大单: 买入 " ++ fmtAmount buy_lg ++ " / 卖出 " ++ fmtAmount sell_lg
              ++ " / 净额 " ++ fmtAmount net_lg,
            "特大单: 买入 " ++ fmtAmount buy_elg ++ " / 卖出 " ++ fmtAmount sell_elg
              ++ " / 净额 " ++ fmtAmount net_elg,
            "主力净流入(大单+特大单): " ++ fmtAmount net_main,
            "总净流入: " ++ fmtAmount (rowGet r "net_mf_amount" .null)]) with
        | .error e => .error e
        | .ok chunks =>
          .ok (String.intercalate "\n"
            (("股票 " ++ ts_code ++ " 资金流向（共 " ++ toString df.length
              ++ " 条，金额单位：万元）：") :: chunks.flatten))), [q]⟩

/-- Keyword-argument binding of `func(**arguments)`: every supplied key
must be a declared parameter. -/
def argKeysSub (args : List (String × String)) (allowed : List String) : Bool :=
  args.all (fun kv => allowed.contains kv.1)

/-- A `TypeError` raised while binding `func(**arguments)`. -/
def kwErr (msg : String) : HRes := ⟨.error (.other "TypeError" msg), []⟩

/-- Bind and run `get_concept_sector_daily`. -/
def runConceptSectorDaily (env : TsEnv) (args : List (String × String)) : HRes :=
  if ¬ argKeysSub args ["ts_code", "trade_date"] then
    kwErr "get_concept_sector_daily() got an unexpected keyword argument"
  else getConceptSectorDaily env ((args.lookup "ts_code").getD "") ((args.lookup "trade_date").getD "")

/-- Bind and run `get_concept_sector_members` (`ts_code` required). -/
def runConceptSectorMembers (env : TsEnv) (args : List (String × String)) : HRes :=
  if ¬ argKeysSub args ["ts_code"] then
    kwErr "get_concept_sector_members() got an unexpected keyword argument"
  else
    match args.lookup "ts_code" with
    | none => kwErr "get_concept_sector_members() missing 1 required positional argument: \x27ts_code\x27"
    | some tsc => getConceptSectorMembers env tsc

/-- Bind and run `get_index_daily` (`ts_code` required). -/
def runIndexDaily (env : TsEnv) (args : List (String × String)) : HRes :=
  if ¬ argKeysSub args ["ts_code", "trade_date"] then
    kwErr "get_index_daily() got an unexpected keyword argument"
  else
    match args.lookup "ts_code" with
    | none => kwErr "get_index_daily() missing 1 required positional argument: \x27ts_code\x27"
    | some tsc => getIndexDaily env tsc ((args.lookup "trade_date").getD "")

/-- Bind and run `get_stock_daily_basic` (`ts_code` required). -/
def runStockDailyBasic (env : TsEnv) (args : List (String × String)) : HRes :=
  if ¬ argKeysSub args ["ts_code", "trade_date"] then
    kwErr "get_stock_daily_basic() got an unexpected keyword argument"
  else
    match args.lookup "ts_code" with
    | none => kwErr "get_stock_daily_basic() missing 1 required positional argument: \x27ts_code\x27"
    | some tsc => getStockDailyBasic env tsc ((args.lookup "trade_date").getD "")

/-- Bind and run `get_stock_daily` (`ts_code` required). -/
def runStockDaily (env : TsEnv) (args : List (String × String)) : HRes :=
  if ¬ argKeysSub args ["ts_code", "trade_date"] then
    kwErr "get_stock_daily() got an unexpected keyword argument"
  else
    match args.lookup "ts_code" with
    | none => kwErr "get_stock_daily() missing 1 required positional argument: \x27ts_code\x27"
    | some tsc => getStockDaily env tsc ((args.lookup "trade_date").getD "")

/-- Bind and run `get_limit_list`. -/
def runLimitList (env : TsEnv) (args : List (String × String)) : HRes :=
  if ¬ argKeysSub args ["trade_date", "limit_type", "ts_code"] then
    kwErr "get_limit_list() got an unexpected keyword argument"
  else
    getLimitList env ((args.lookup "trade_date").getD "") ((args.lookup "limit_type").getD "")
      ((args.lookup "ts_code").getD "")

/-- Bind and run `get_top_list`. -/
def runTopList (env : TsEnv) (args : List (String × String)) : HRes :=
  if ¬ argKeysSub args ["trade_date", "ts_code"] then
    kwErr "get_top_list() got an unexpected keyword argument"
  else getTopList env ((args.lookup "trade_date").getD "") ((args.lookup "ts_code").getD "")

/-- Bind and run `get_moneyflow` (`ts_code` required). -/
def runMoneyflow (env : TsEnv) (args : List (String × String)) : HRes :=
  if ¬ argKeysSub args ["ts_code", "trade_date"] then
    kwErr "get_moneyflow() got an unexpected keyword argument"
  else
    match args.lookup "ts_code" with
    | none => kwErr "get_moneyflow() missing 1 required positional argument: \x27ts_code\x27"
    | some tsc => getMoneyflow env tsc ((args.lookup "trade_date").getD "")

/-- The `dispatch` table of `TushareToolExecutor.execute`, applied:
`none` is a lookup miss (unknown function name). -/
def dispatchRun (env : TsEnv) (function_name : String) (args : List (String × String)) : Option HRes :=
  if function_name = "get_concept_sector_daily" then some (runConceptSectorDaily env args)
  else if function_name = "get_concept_sector_members" then some (runConceptSectorMembers env args)
  else if function_name = "get_index_daily" then some (runIndexDaily env args)
  else if function_name = "get_stock_daily_basic" then some (runStockDailyBasic env args)
  else if function_name = "get_stock_daily" then some (runStockDaily env args)
  else if function_name = "get_limit_list" then some (runLimitList env args)
  else if function_name = "get_top_list" then some (runTopList env args)
  else if function_name = "get_moneyflow" then some (runMoneyflow env args)
  else none

/-- The unknown-function error string. -/
def unknownFuncMsg (function_name : String) : String :=
  "错误：未知的工具函数 \x27" ++ function_name ++ "\x27"

/-- The missing-dependency error string. -/
def tushareMissingMsg : String := "错误：tushare 未安装，请先安装：pip install tushare"

/-- Truncation of an upstream error message to 200 characters plus an
ellipsis. -/
def truncatedMsg (m : String) : String :=
  if m.length > 200 then m.take 200 ++ "..." else m

/-- The handler-failure error string. -/
def queryFailMsg (ty m : String) : String :=
  "Tushare 查询失败 (" ++ ty ++ "): " ++ truncatedMsg m

/-- The `except` clauses of `execute`, as a conversion from the raised
exception to the returned text. -/
def excToText : PyExc → String
  | .importError => tushareMissingMsg
  | .other ty m => queryFailMsg ty m

/-- `TushareToolExecutor.execute`, with its ghost list of API
accesses. -/
def executeFull (env : TsEnv) (function_name : String) (args : List (String × String)) :
    String × List TsQuery :=
  match dispatchRun env function_name args with
  | none => (unknownFuncMsg function_name, [])
  | some h => ((match h.out with | .ok s => s | .error e => excToText e), h.touches)

/-- `TushareToolExecutor.execute`'s return value (total: it never
raises). -/
def execute (env : TsEnv) (function_name : String) (args : List (String × String)) : String :=
  (executeFull env function_name args).1

/-! ### Concrete fixtures (inputs used to exercise the embedding) -/

/-- A concrete client configuration. -/
def cfgW : AIConfig :=
  { model := "deepseek/deepseek-chat", api_key := "k", api_base := "",
    temperature := 1, max_tokens := 5000, timeout := 120, num_retries := 2,
    fallback_models := [] }

/-- A provider that immediately answers without tool calls. -/
def oracleStop : Params → RespMessage := fun _ => ⟨some "done", none⟩

/-- A provider that always requests one tool call whose argument payload
is malformed. -/
def oracleCall : Params → RespMessage :=
  fun _ => ⟨none, some [⟨"call_1", ⟨"probe_fn", some "\x7bnot json"⟩⟩]⟩

/-- A tool executor returning a constant text. -/
def execW : String → Json → String := fun _ _ => "ok"

/-! ### Helper lemmas about the tool-calling loop -/

/-- `_build_params` never attaches a tool schema. -/
theorem buildParams_tools_none (cfg : AIConfig) (msgs : List Message) (kw : Kwargs) :
    (buildParams cfg msgs kw).tools = none := rfl

/-- A round request always carries the tool schema. -/
theorem roundParams_tools (cfg : AIConfig) (tools : List Json) (kw : Kwargs)
    (msgs : List Message) :
    (roundParams cfg tools kw msgs).tools = some tools := rfl

/-- Unfolding the loop at an exhausted budget. -/
theorem chatToolsGo_zero (cfg : AIConfig) (oracle : Params → RespMessage)
    (tools : List Json) (executor : String → Json → String) (kw : Kwargs)
    (msgs : List Message) :
    chatToolsGo cfg oracle tools executor kw 0 msgs =
      ⟨some ((oracle (buildParams cfg msgs kw)).content.getD ""),
       [buildParams cfg msgs kw], msgs⟩ := rfl

/-- Unfolding one round whose response carries tool calls. -/
theorem chatToolsGo_succ_pos (cfg : AIConfig) (oracle : Params → RespMessage)
    (tools : List Json) (executor : String → Json → String) (kw : Kwargs)
    (n : Nat) (msgs : List Message)
    (h : (oracle (roundParams cfg tools kw msgs)).hasCalls = true) :
    chatToolsGo cfg oracle tools executor kw (n + 1) msgs =
      ⟨(chatToolsGo cfg oracle tools executor kw n
          (msgs ++ roundBlock executor (oracle (roundParams cfg tools kw msgs)))).result,
       roundParams cfg tools kw msgs ::
         (chatToolsGo cfg oracle tools executor kw n
           (msgs ++ roundBlock executor (oracle (roundParams cfg tools kw msgs)))).requests,
       (chatToolsGo cfg oracle tools executor kw n
         (msgs ++ roundBlock executor (oracle (roundParams cfg tools kw msgs)))).finalMsgs⟩ := by
  simp only [chatToolsGo]
  rw [if_pos h]

/-- Unfolding one round whose response carries no tool calls. -/
theorem chatToolsGo_succ_neg (cfg : AIConfig) (oracle : Params → RespMessage)
    (tools : List Json) (executor : String → Json → String) (kw : Kwargs)
    (n : Nat) (msgs : List Message)
    (h : (oracle (roundParams cfg tools kw msgs)).hasCalls = false) :
    chatToolsGo cfg oracle tools executor kw (n + 1) msgs =
      ⟨some ((oracle (roundParams cfg tools kw msgs)).content.getD ""),
       [roundParams cfg tools kw msgs], msgs⟩ := by
  simp only [chatToolsGo]
  rw [if_neg (by simp [h])]

/-- With `n` rounds of budget left, the loop issues at most `n` requests
carrying the tool schema and at most `n + 1` requests in total. -/
theorem chatToolsGo_reqBounds (cfg : AIConfig) (oracle : Params → RespMessage)
    (tools : List Json) (executor : String → Json → String) (kw : Kwargs) (n : Nat) :
    ∀ msgs : List Message,
      ((chatToolsGo cfg oracle tools executor kw n msgs).requests.filter
        (fun p => p.tools.isSome)).length ≤ n ∧
      (chatToolsGo cfg oracle tools executor kw n msgs).requests.length ≤ n + 1 := by
  induction n with
  | zero =>
    intro msgs
    rw [chatToolsGo_zero]
    refine ⟨?_, by simp⟩
    simp [List.filter_cons, buildParams_tools_none]
  | succ n ih =>
    intro msgs
    by_cases h : (oracle (roundParams cfg tools kw msgs)).hasCalls = true
    · rw [chatToolsGo_succ_pos cfg oracle tools executor kw n msgs h]
      obtain ⟨ih1, ih2⟩ :=
        ih (msgs ++ roundBlock executor (oracle (roundParams cfg tools kw msgs)))
      refine ⟨?_, ?_⟩
      · simpa [List.filter_cons, roundParams_tools] using Nat.succ_le_succ ih1
      · simpa using Nat.succ_le_succ ih2
    · rw [chatToolsGo_succ_neg cfg oracle tools executor kw n msgs
        (by simpa using h)]
      refine ⟨?_, by simp⟩
      simp [List.filter_cons, roundParams_tools]

/-- If every tool-carrying request is answered with tool calls, the loop
issues exactly `n` schema-carrying requests followed by one final
request without the schema. -/
theorem chatToolsGo_exhaust (cfg : AIConfig) (oracle : Params → RespMessage)
    (tools : List Json) (executor : String → Json → String) (kw : Kwargs) (n : Nat) :
    ∀ msgs : List Message,
      (∀ p ∈ (chatToolsGo cfg oracle tools executor kw n msgs).requests,
          p.tools.isSome = true → (oracle p).hasCalls = true) →
      ∃ qs q, (chatToolsGo cfg oracle tools executor kw n msgs).requests = qs ++ [q] ∧
        qs.length = n ∧ (∀ p ∈ qs, p.tools = some tools) ∧ q.tools = none := by
  induction n with
  | zero =>
    intro msgs _
    exact ⟨[], buildParams cfg msgs kw, rfl, rfl, by simp, rfl⟩
  | succ n ih =>
    intro msgs hall
    by_cases h : (oracle (roundParams cfg tools kw msgs)).hasCalls = true
    · obtain ⟨qs, q, heq, hlen, hqs, hq⟩ :=
        ih (msgs ++ roundBlock executor (oracle (roundParams cfg tools kw msgs)))
          (fun p hp hs => hall p
            (by rw [chatToolsGo_succ_pos cfg oracle tools executor kw n msgs h]
                exact List.mem_cons_of_mem _ hp) hs)
      refine ⟨roundParams cfg tools kw msgs :: qs, q, ?_, ?_, ?_, hq⟩
      · rw [chatToolsGo_succ_pos cfg oracle tools executor kw n msgs h]
        simp [heq]
      · simp [hlen]
      · intro p hp
        rcases List.mem_cons.mp hp with rfl | hp
        · exact roundParams_tools cfg tools kw msgs
        · exact hqs p hp
    · exfalso
      apply h
      apply hall (roundParams cfg tools kw msgs)
      · rw [chatToolsGo_succ_neg cfg oracle tools executor kw n msgs (by simpa using h)]
        exact List.mem_singleton_self _
      · exact roundParams_tools cfg tools kw msgs ▸ rfl

/-- The loop's final conversation extends its starting conversation by
appended assistant tool-request and tool-result messages only. -/
theorem chatToolsGo_msgsExt (cfg : AIConfig) (oracle : Params → RespMessage)
    (tools : List Json) (executor : String → Json → String) (kw : Kwargs) (n : Nat) :
    ∀ msgs : List Message,
      ∃ t, (chatToolsGo cfg oracle tools executor kw n msgs).finalMsgs = msgs ++ t ∧
        ∀ m ∈ t, (∃ rm, m = Message.assistantTool rm) ∨
          ∃ a b c, m = Message.toolResult a b c := by
  induction n with
  | zero =>
    intro msgs
    exact ⟨[], by rw [chatToolsGo_zero]; simp, by simp⟩
  | succ n ih =>
    intro msgs
    by_cases h : (oracle (roundParams cfg tools kw msgs)).hasCalls = true
    · obtain ⟨t, ht, hmem⟩ :=
        ih (msgs ++ roundBlock executor (oracle (roundParams cfg tools kw msgs)))
      refine ⟨roundBlock executor (oracle (roundParams cfg tools kw msgs)) ++ t, ?_, ?_⟩
      · rw [chatToolsGo_succ_pos cfg oracle tools executor kw n msgs h]
        simpa [List.append_assoc] using ht
      · intro m hm
        rcases List.mem_append.mp hm with hm | hm
        · rcases List.mem_cons.mp hm with rfl | hm
          · exact Or.inl ⟨_, rfl⟩
          · obtain ⟨tc, _, rfl⟩ := List.mem_map.mp hm
            exact Or.inr ⟨_, _, _, rfl⟩
        · exact hmem m hm
    · exact ⟨[], by
        rw [chatToolsGo_succ_neg cfg oracle tools executor kw n msgs (by simpa using h)]
        simp, by simp⟩

/-- The loop (as opposed to the degraded `chat()` path) always returns a
non-null string. -/
theorem chatToolsGo_resultSome (cfg : AIConfig) (oracle : Params → RespMessage)
    (tools : List Json) (executor : String → Json → String) (kw : Kwargs) (n : Nat) :
    ∀ msgs : List Message,
      ∃ s, (chatToolsGo cfg oracle tools executor kw n msgs).result = some s := by
  induction n with
  | zero =>
    intro msgs
    exact ⟨_, by rw [chatToolsGo_zero]⟩
  | succ n ih =>
    intro msgs
    by_cases h : (oracle (roundParams cfg tools kw msgs)).hasCalls = true
    · rw [chatToolsGo_succ_pos cfg oracle tools executor kw n msgs h]
      exact ih _
    · rw [chatToolsGo_succ_neg cfg oracle tools executor kw n msgs (by simpa using h)]
      exact ⟨_, rfl⟩

/-- A response one of whose tool calls is `tc` passes the truthiness
check on `tool_calls`. -/
theorem hasCalls_of_mem {rm : RespMessage} {tc : ToolCall} (h : tc ∈ rm.calls) :
    rm.hasCalls = true := by
  cases rm with
  | mk content tool_calls =>
    cases tool_calls with
    | none => simp [RespMessage.calls] at h
    | some l =>
      simp only [RespMessage.calls, Option.getD_some] at h
      simp [RespMessage.hasCalls, List.isEmpty_iff]
      exact List.ne_nil_of_mem h

/-! ### Claims about the AI client -/

/-- C1: for every round budget `max_rounds = k` with `k ≥ 1` and all
messages, schemas and executors, `chat_with_tools` issues at most `k`
requests carrying the tool schema and at most `k + 1` requests in
total; when the probe did not report unsupported and every
schema-carrying request is answered with tool calls, the trace is
exactly `k` schema requests followed by one final schema-free request.
The loop is a total function of its fuel, so it terminates on every
input. -/
theorem spec_c1 (cfg : AIConfig) (oracle : Params → RespMessage) (probe : Except Unit Bool)
    (messages : List Message) (tools : List Json) (executor : String → Json → String)
    (kw : Kwargs) (k : Nat) (hk : 1 ≤ k) :
    ((chatWithToolsFull cfg oracle probe messages tools executor k kw).requests.filter
      (fun p => p.tools.isSome)).length ≤ k ∧
    (chatWithToolsFull cfg oracle probe messages tools executor k kw).requests.length ≤ k + 1 ∧
    (probe ≠ Except.ok false →
      (∀ p ∈ (chatWithToolsFull cfg oracle probe messages tools executor k kw).requests,
          p.tools.isSome = true → (oracle p).hasCalls = true) →
      ∃ qs q, (chatWithToolsFull cfg oracle probe messages tools executor k kw).requests
          = qs ++ [q] ∧
        qs.length = k ∧ (∀ p ∈ qs, p.tools = some tools) ∧ q.tools = none) := by
  cases probe with
  | error e =>
    refine ⟨(chatToolsGo_reqBounds cfg oracle tools executor kw k messages).1,
      (chatToolsGo_reqBounds cfg oracle tools executor kw k messages).2, ?_⟩
    intro _ hall
    exact chatToolsGo_exhaust cfg oracle tools executor kw k messages hall
  | ok b =>
    cases b with
    | true =>
      refine ⟨(chatToolsGo_reqBounds cfg oracle tools executor kw k messages).1,
        (chatToolsGo_reqBounds cfg oracle tools executor kw k messages).2, ?_⟩
      intro _ hall
      exact chatToolsGo_exhaust cfg oracle tools executor kw k messages hall
    | false =>
      refine ⟨?_, ?_, ?_⟩
      · show (([buildParams cfg messages kw].filter (fun p => p.tools.isSome)).length ≤ k)
        simp [List.filter_cons, buildParams_tools_none]
      · show ([buildParams cfg messages kw].length ≤ k + 1)
        simp
      · intro hne _
        exact absurd rfl hne

/-- C1 witness at a concrete configuration, oracle and round budget. -/
theorem spec_c1_witness :
    ((chatWithToolsFull cfgW oracleStop (Except.ok true) [] [] execW 1 {}).requests.filter
      (fun p => p.tools.isSome)).length ≤ 1 ∧
    (chatWithToolsFull cfgW oracleStop (Except.ok true) [] [] execW 1 {}).requests.length ≤ 2 := by
  have h := spec_c1 cfgW oracleStop (Except.ok true) [] [] execW {} 1 (by decide)
  exact ⟨h.1, h.2.1⟩

/-- C2: in every round whose response carries `N ≥ 1` tool calls, the
loop appends the assistant tool-requesting message and then exactly `N`
tool-result messages, one per requested call, in the order the model
emitted them, each with role `"tool"`, the originating call's id, the
call's function name, and the executor's returned text — all before the
next model request is issued. -/
theorem spec_c2 (cfg : AIConfig) (oracle : Params → RespMessage) (tools : List Json)
    (executor : String → Json → String) (kw : Kwargs) (n : Nat) (msgs : List Message)
    (h : (oracle (roundParams cfg tools kw msgs)).hasCalls = true) :
    chatToolsGo cfg oracle tools executor kw (n + 1) msgs =
      ⟨(chatToolsGo cfg oracle tools executor kw n
          (msgs ++ roundBlock executor (oracle (roundParams cfg tools kw msgs)))).result,
       roundParams cfg tools kw msgs ::
         (chatToolsGo cfg oracle tools executor kw n
           (msgs ++ roundBlock executor (oracle (roundParams cfg tools kw msgs)))).requests,
       (chatToolsGo cfg oracle tools executor kw n
         (msgs ++ roundBlock executor (oracle (roundParams cfg tools kw msgs)))).finalMsgs⟩ ∧
    roundBlock executor (oracle (roundParams cfg tools kw msgs))
      = Message.assistantTool (oracle (roundParams cfg tools kw msgs))
        :: (oracle (roundParams cfg tools kw msgs)).calls.map (mkToolResultMsg executor) ∧
    ((oracle (roundParams cfg tools kw msgs)).calls.map (mkToolResultMsg executor)).length
      = (oracle (roundParams cfg tools kw msgs)).calls.length ∧
    (∀ m ∈ (oracle (roundParams cfg tools kw msgs)).calls.map (mkToolResultMsg executor),
      Message.role m = "tool") ∧
    ∀ i (hi : i < (oracle (roundParams cfg tools kw msgs)).calls.length),
      ((oracle (roundParams cfg tools kw msgs)).calls.map (mkToolResultMsg executor)).get
          ⟨i, by simpa using hi⟩
        = Message.toolResult ((oracle (roundParams cfg tools kw msgs)).calls.get ⟨i, hi⟩).id
            ((oracle (roundParams cfg tools kw msgs)).calls.get ⟨i, hi⟩).function.name
            (executor ((oracle (roundParams cfg tools kw msgs)).calls.get ⟨i, hi⟩).function.name
              (parsedArgs
                ((oracle (roundParams cfg tools kw msgs)).calls.get
                  ⟨i, hi⟩).function.arguments)) := by
  refine ⟨chatToolsGo_succ_pos cfg oracle tools executor kw n msgs h, rfl, by simp, ?_, ?_⟩
  · intro m hm
    obtain ⟨tc, _, rfl⟩ := List.mem_map.mp hm
    rfl
  · intro i hi
    simp [List.get_map, mkToolResultMsg]

/-- C2 witness: one concrete round appends the assistant message and the
single tool-result message before the next request. -/
theorem spec_c2_witness :
    (chatToolsGo cfgW oracleCall [] execW {} 1 []).finalMsgs
      = [Message.assistantTool ⟨none, some [⟨"call_1", ⟨"probe_fn", some "\x7bnot json"⟩⟩]⟩,
         Message.toolResult "call_1" "probe_fn" "ok"] := by
  have h := spec_c2 cfgW oracleCall [] execW {} 0 [] rfl
  rw [h.1]
  rfl

/-- C3: when the capability probe reports that the model does not
support function calling, `chat_with_tools` issues exactly one request,
without the tool schema, and returns exactly `chat()`'s result for the
same messages and overrides. -/
theorem spec_c3 (cfg : AIConfig) (oracle : Params → RespMessage) (messages : List Message)
    (tools : List Json) (executor : String → Json → String) (k : Nat) (kw : Kwargs) :
    (chatWithToolsFull cfg oracle (Except.ok false) messages tools executor k kw).requests
      = [buildParams cfg messages kw] ∧
    (buildParams cfg messages kw).tools = none ∧
    chatWithTools cfg oracle (Except.ok false) messages tools executor k kw
      = chat cfg oracle messages kw :=
  ⟨rfl, rfl, rfl⟩

/-- C4: a tool call whose raw argument payload fails to parse (malformed
text such as `"\x7bnot json"`, or an absent/null payload) is executed with
the empty argument map, and the resulting tool message still enters the
round's conversation — the parse failure is never escalated. -/
theorem spec_c4 (cfg : AIConfig) (oracle : Params → RespMessage) (tools : List Json)
    (executor : String → Json → String) (kw : Kwargs) (n : Nat) (msgs : List Message)
    (tc : ToolCall)
    (hmem : tc ∈ (oracle (roundParams cfg tools kw msgs)).calls)
    (hbad : jsonLoads tc.function.arguments = none) :
    mkToolResultMsg executor tc
      = Message.toolResult tc.id tc.function.name (executor tc.function.name (Json.obj [])) ∧
    Message.toolResult tc.id tc.function.name (executor tc.function.name (Json.obj []))
      ∈ (chatToolsGo cfg oracle tools executor kw (n + 1) msgs).finalMsgs ∧
    jsonLoads (some "\x7bnot json") = none ∧ jsonLoads none = none := by
  have h1 : mkToolResultMsg executor tc
      = Message.toolResult tc.id tc.function.name (executor tc.function.name (Json.obj [])) := by
    unfold mkToolResultMsg parsedArgs
    rw [hbad]
    rfl
  refine ⟨h1, ?_, rfl, rfl⟩
  rw [chatToolsGo_succ_pos cfg oracle tools executor kw n msgs (hasCalls_of_mem hmem)]
  obtain ⟨t, ht, _⟩ := chatToolsGo_msgsExt cfg oracle tools executor kw n
    (msgs ++ roundBlock executor (oracle (roundParams cfg tools kw msgs)))
  show Message.toolResult tc.id tc.function.name (executor tc.function.name (Json.obj []))
    ∈ (chatToolsGo cfg oracle tools executor kw n
        (msgs ++ roundBlock executor (oracle (roundParams cfg tools kw msgs)))).finalMsgs
  rw [ht]
  apply List.mem_append_left
  apply List.mem_append_right
  simp only [roundBlock]
  apply List.mem_cons_of_mem
  rw [← h1]
  exact List.mem_map_of_mem _ hmem

/-- C4 witness: the malformed payload `"\x7bnot json"` yields an execution
with the empty argument map. -/
theorem spec_c4_witness :
    mkToolResultMsg execW ⟨"call_1", ⟨"probe_fn", some "\x7bnot json"⟩⟩
      = Message.toolResult "call_1" "probe_fn" (execW "probe_fn" (Json.obj [])) := by
  have h := spec_c4 cfgW oracleCall [] execW {} 0 [] ⟨"call_1", ⟨"probe_fn", some "\x7bnot json"⟩⟩
    (by simp [oracleCall, RespMessage.calls]) rfl
  exact h.1

/-- C8: the caller's message list is never mutated — the loop's final
conversation is the caller's sequence extended only by appended
assistant tool-request and tool-result messages (and the degraded
`chat()` path appends nothing), for any number of rounds. -/
theorem spec_c8 (cfg : AIConfig) (oracle : Params → RespMessage) (probe : Except Unit Bool)
    (messages : List Message) (tools : List Json) (executor : String → Json → String)
    (k : Nat) (kw : Kwargs) :
    ∃ t, (chatWithToolsFull cfg oracle probe messages tools executor k kw).finalMsgs
        = messages ++ t ∧
      ∀ m ∈ t, (∃ rm, m = Message.assistantTool rm) ∨
        ∃ a b c, m = Message.toolResult a b c := by
  cases probe with
  | error e => exact chatToolsGo_msgsExt cfg oracle tools executor kw k messages
  | ok b =>
    cases b with
    | true => exact chatToolsGo_msgsExt cfg oracle tools executor kw k messages
    | false =>
      refine ⟨[], ?_, by simp⟩
      rw [List.append_nil]
      rfl

/-- C10: `chat()` returns the provider's first-choice content exactly as
received (possibly null); the probe-unsupported fallback of
`chat_with_tools` therefore returns that same possibly-null value; the
loop's own exits always return a non-null string (null content is
coerced to the empty string there). -/
theorem spec_c10 (cfg : AIConfig) (oracle : Params → RespMessage) (messages : List Message)
    (tools : List Json) (executor : String → Json → String) (k : Nat) (kw : Kwargs) :
    chat cfg oracle messages kw = (oracle (buildParams cfg messages kw)).content ∧
    chatWithTools cfg oracle (Except.ok false) messages tools executor k kw
      = (oracle (buildParams cfg messages kw)).content ∧
    ∀ probe : Except Unit Bool, probe ≠ Except.ok false →
      ∃ s, chatWithTools cfg oracle probe messages tools executor k kw = some s := by
  refine ⟨rfl, rfl, ?_⟩
  intro probe hne
  cases probe with
  | error e => exact chatToolsGo_resultSome cfg oracle tools executor kw k messages
  | ok b =>
    cases b with
    | true => exact chatToolsGo_resultSome cfg oracle tools executor kw k messages
    | false => exact absurd rfl hne

/-- C10 witness: a probe that did not report unsupported yields a
non-null result. -/
theorem spec_c10_witness :
    ∃ s, chatWithTools cfgW oracleStop (Except.ok true) [] [] execW 1 {} = some s :=
  (spec_c10 cfgW oracleStop [] [] execW 1 {}).2.2 (Except.ok true) (by simp)

/-! ### Claims about `validate_config` -/

/-- Appending to a non-empty string yields a non-empty string. -/
theorem string_append_ne_empty (s t : String) (h : s ≠ "") : s ++ t ≠ "" := by
  intro he
  apply h
  apply String.ext
  have hd := congrArg String.data he
  rw [String.data_append] at hd
  exact (List.append_eq_nil.mp hd).1

/-- `validate_config` when the model identifier is empty. -/
theorem validateConfig_model_empty (cfg : AIConfig) (h : cfg.model = "") :
    validateConfig cfg = (false, "未配置 AI 模型（model）") := by
  simp [validateConfig, h]

/-- `validate_config` when the credential is empty. -/
theorem validateConfig_key_empty (cfg : AIConfig) (h1 : cfg.model ≠ "") (h2 : cfg.api_key = "") :
    validateConfig cfg
      = (false, "未配置 AI API Key，请在 config.yaml 或环境变量 AI_API_KEY 中设置") := by
  simp [validateConfig, h1, h2]

/-- `validate_config` when the model identifier has no separator. -/
theorem validateConfig_no_slash (cfg : AIConfig) (h1 : cfg.model ≠ "") (h2 : cfg.api_key ≠ "")
    (h3 : cfg.model.data.contains '/' = false) :
    validateConfig cfg = (false, "模型格式错误: " ++ cfg.model
      ++ "，应为 \x27provider/model\x27 格式（如 \x27deepseek/deepseek-chat\x27）") := by
  have h3' : '/' ∉ cfg.model.data := by simpa using h3
  simp [validateConfig, h1, h2, h3']

/-- `validate_config` in the successful case. -/
theorem validateConfig_ok (cfg : AIConfig) (h1 : cfg.model ≠ "") (h2 : cfg.api_key ≠ "")
    (h3 : cfg.model.data.contains '/' = true) :
    validateConfig cfg = (true, "") := by
  have h3' : '/' ∈ cfg.model.data := by simpa using h3
  simp [validateConfig, h1, h2, h3']

/-- C7: `validate_config` is a pure check that fails exactly when the
model identifier is empty, the credential is empty, or the identifier
contains no `/` separator, returning a non-empty human-readable reason
in each failure case and `(true, "")` on success; in particular it fails
for model id `"gpt4"` with a non-empty credential and succeeds for
`"deepseek/deepseek-chat"` with a non-empty credential. -/
theorem spec_c7 (cfg : AIConfig) (key : String) (hkey : key ≠ "") :
    ((validateConfig cfg).1 = false ↔
      cfg.model = "" ∨ cfg.api_key = "" ∨ cfg.model.data.contains '/' = false) ∧
    ((validateConfig cfg).1 = false → (validateConfig cfg).2 ≠ "") ∧
    ((validateConfig cfg).1 = true → (validateConfig cfg).2 = "") ∧
    (validateConfig { cfg with model := "gpt4", api_key := key }).1 = false ∧
    (validateConfig { cfg with model := "gpt4", api_key := key }).2 ≠ "" ∧
    validateConfig { cfg with model := "deepseek/deepseek-chat", api_key := key }
      = (true, "") := by
  have hg := validateConfig_no_slash { cfg with model := "gpt4", api_key := key }
    (show ("gpt4" : String) ≠ "" by decide) hkey
    (show ("gpt4" : String).data.contains '/' = false by decide)
  have hd := validateConfig_ok { cfg with model := "deepseek/deepseek-chat", api_key := key }
    (show ("deepseek/deepseek-chat" : String) ≠ "" by decide) hkey
    (show ("deepseek/deepseek-chat" : String).data.contains '/' = true by decide)
  refine ⟨?_, ?_, ?_, ?_, ?_, hd⟩
  · constructor
    · intro hfalse
      by_contra hno
      push_neg at hno
      obtain ⟨h1, h2, h3⟩ := hno
      rw [validateConfig_ok cfg h1 h2 (by
        cases hc : cfg.model.data.contains '/' with
        | false => exact absurd hc h3
        | true => rfl)] at hfalse
      simp at hfalse
    · intro hcase
      rcases hcase with h | h | h
      · rw [validateConfig_model_empty cfg h]
      · by_cases hm : cfg.model = ""
        · rw [validateConfig_model_empty cfg hm]
        · rw [validateConfig_key_empty cfg hm h]
      · by_cases hm : cfg.model = ""
        · rw [validateConfig_model_empty cfg hm]
        · by_cases hk2 : cfg.api_key = ""
          · rw [validateConfig_key_empty cfg hm hk2]
          · rw [validateConfig_no_slash cfg hm hk2 h]
  · intro hfalse
    by_cases hm : cfg.model = ""
    · rw [validateConfig_model_empty cfg hm]
      decide
    · by_cases hk2 : cfg.api_key = ""
      · rw [validateConfig_key_empty cfg hm hk2]
        decide
      · cases hc : cfg.model.data.contains '/' with
        | false =>
          rw [validateConfig_no_slash cfg hm hk2 hc]
          exact string_append_ne_empty _ _ (string_append_ne_empty _ _ (by decide))
        | true =>
          rw [validateConfig_ok cfg hm hk2 hc] at hfalse
          simp at hfalse
  · intro htrue
    by_cases hm : cfg.model = ""
    · rw [validateConfig_model_empty cfg hm] at htrue
      simp at htrue
    · by_cases hk2 : cfg.api_key = ""
      · rw [validateConfig_key_empty cfg hm hk2] at htrue
        simp at htrue
      · cases hc : cfg.model.data.contains '/' with
        | false =>
          rw [validateConfig_no_slash cfg hm hk2 hc] at htrue
          simp at htrue
        | true =>
          rw [validateConfig_ok cfg hm hk2 hc]
  · rw [hg]
  · rw [hg]
    exact string_append_ne_empty _ _ (string_append_ne_empty _ _ (by decide))

/-- C7 witness at a concrete configuration and credential. -/
theorem spec_c7_witness :
    (validateConfig { cfgW with model := "gpt4", api_key := "k" }).1 = false ∧
    validateConfig { cfgW with model := "deepseek/deepseek-chat", api_key := "k" }
      = (true, "") := by
  have h := spec_c7 cfgW "k" (by decide)
  exact ⟨h.2.2.2.1, h.2.2.2.2.2⟩

/-! ### Claims about the tool executor -/

/-- The head character of an append whose left part starts with `c`. -/
theorem data_head_append (s t : String) (c : Char) (h : s.data.head? = some c) :
    (s ++ t).data.head? = some c := by
  rw [String.data_append]
  cases hs : s.data with
  | nil => rw [hs] at h; simp at h
  | cons a l =>
    rw [hs] at h
    simp at h
    simp [h]

/-- An index into the left part of an append. -/
theorem data_getElem_append (s t : String) (i : Nat) (c : Char)
    (hlen : i < s.data.length) (h : s.data[i]? = some c) :
    (s ++ t).data[i]? = some c := by
  rw [String.data_append, List.getElem?_append_left hlen]
  exact h

/-- The reversed character list of an append. -/
theorem data_reverse_append (s t : String) :
    (s ++ t).data.reverse = t.data.reverse ++ s.data.reverse := by
  rw [String.data_append, List.reverse_append]

/-- A marker character at distance `i` from the end of an append's right
part. -/
theorem suffix_char (s t : String) (i : Nat) (c : Char)
    (hlen : i < t.data.length) (h : t.data.reverse[i]? = some c) :
    (s ++ t).data.reverse[i]? = some c := by
  rw [data_reverse_append, List.getElem?_append_left (by simpa using hlen)]
  exact h

/-- C5: for every function name and argument map, `execute` returns a
string and never raises: an unknown name yields the distinct
unknown-function string (differing from the dependency-missing string
and from every handler-failure string), a missing `tushare` dependency
yields its own string, and any other handler exception is converted to
an error string whose embedded message is truncated to 200 characters
plus an ellipsis when longer. -/
theorem spec_c5 (env : TsEnv) (function_name : String) (args : List (String × String)) :
    (dispatchRun env function_name args = none →
      execute env function_name args = unknownFuncMsg function_name) ∧
    (∀ h : HRes, dispatchRun env function_name args = some h →
      h.out = Except.error PyExc.importError →
      execute env function_name args = tushareMissingMsg) ∧
    (∀ (h : HRes) (ty m : String), dispatchRun env function_name args = some h →
      h.out = Except.error (PyExc.other ty m) →
      execute env function_name args
        = "Tushare 查询失败 (" ++ ty ++ "): "
          ++ (if m.length > 200 then m.take 200 ++ "..." else m)) ∧
    (∀ ty m : String, unknownFuncMsg function_name ≠ queryFailMsg ty m) ∧
    unknownFuncMsg function_name ≠ tushareMissingMsg := by
  refine ⟨?_, ?_, ?_, ?_, ?_⟩
  · intro hnone
    unfold execute executeFull
    rw [hnone]
  · intro h hsome hout
    unfold execute executeFull
    rw [hsome]
    show (match h.out with | .ok s => s | .error e => excToText e) = tushareMissingMsg
    rw [hout]
    rfl
  · intro h ty m hsome hout
    unfold execute executeFull
    rw [hsome]
    show (match h.out with | .ok s => s | .error e => excToText e)
      = "Tushare 查询失败 (" ++ ty ++ "): "
        ++ (if m.length > 200 then m.take 200 ++ "..." else m)
    rw [hout]
    rfl
  · intro ty m heq
    have hu : (unknownFuncMsg function_name).data.head? = some '错' :=
      data_head_append _ "\x27" '错' (data_head_append _ function_name '错' rfl)
    have hq : (queryFailMsg ty m).data.head? = some 'T' :=
      data_head_append _ (truncatedMsg m) 'T'
        (data_head_append _ "): " 'T' (data_head_append _ ty 'T' rfl))
    rw [heq] at hu
    exact absurd (hu.symm.trans hq) (by decide)
  · intro heq
    have hpre : ("错误：未知的工具函数 \x27" : String).data.length = 12 := by decide
    have hlen : 3 < (("错误：未知的工具函数 \x27" : String) ++ function_name).data.length := by
      rw [String.data_append, List.length_append, hpre]
      omega
    have hu : (unknownFuncMsg function_name).data[3]? = some '未' :=
      data_getElem_append _ "\x27" 3 '未' hlen
        (data_getElem_append _ function_name 3 '未' (by omega) (by decide))
    have ht : tushareMissingMsg.data[3]? = some 't' := by decide
    rw [heq] at hu
    exact absurd (hu.symm.trans ht) (by decide)

/-- C5 witness: the three `execute` outcomes at concrete inputs. -/
theorem spec_c5_witness :
    execute ⟨true, fun _ => Except.ok none⟩ "no_such_tool" [] = unknownFuncMsg "no_such_tool" ∧
    execute ⟨false, fun _ => Except.ok none⟩ "get_index_daily" [("ts_code", "000001.SH")]
      = tushareMissingMsg ∧
    execute ⟨true, fun _ => Except.error (PyExc.other "Exception" "boom")⟩ "get_index_daily"
      [("ts_code", "000001.SH")]
      = "Tushare 查询失败 (" ++ "Exception" ++ "): "
        ++ (if ("boom" : String).length > 200 then ("boom" : String).take 200 ++ "..."
            else "boom") := by
  refine ⟨?_, ?_, ?_⟩
  · exact (spec_c5 ⟨true, fun _ => Except.ok none⟩ "no_such_tool" []).1 rfl
  · exact (spec_c5 ⟨false, fun _ => Except.ok none⟩ "get_index_daily"
      [("ts_code", "000001.SH")]).2.1 _ rfl rfl
  · exact (spec_c5 ⟨true, fun _ => Except.error (PyExc.other "Exception" "boom")⟩
      "get_index_daily" [("ts_code", "000001.SH")]).2.2.1 _ "Exception" "boom" rfl rfl

/-- C6: the query operations all of whose identifying filters are
optional (`get_concept_sector_daily`, `get_limit_list`, `get_top_list`)
return an explicit validation-error string when every optional filter is
absent or empty, and perform no query against the external data source:
the lazily-constructed API handle is never touched. -/
theorem spec_c6 (env : TsEnv) :
    getConceptSectorDaily env "" ""
      = ⟨Except.ok "错误：请至少提供板块代码（ts_code）或交易日期（trade_date）之一。", []⟩ ∧
    getLimitList env "" "" ""
      = ⟨Except.ok "错误：请至少提供交易日期（trade_date）或股票代码（ts_code）之一。", []⟩ ∧
    getTopList env "" ""
      = ⟨Except.ok "错误：请至少提供交易日期（trade_date）或股票代码（ts_code）之一。", []⟩ ∧
    executeFull env "get_concept_sector_daily" []
      = ("错误：请至少提供板块代码（ts_code）或交易日期（trade_date）之一。", []) ∧
    executeFull env "get_limit_list" []
      = ("错误：请至少提供交易日期（trade_date）或股票代码（ts_code）之一。", []) ∧
    executeFull env "get_top_list" []
      = ("错误：请至少提供交易日期（trade_date）或股票代码（ts_code）之一。", []) :=
  ⟨rfl, rfl, rfl, rfl, rfl, rfl⟩

/-- C9 counterexample: `_fmt_amount` at `v = -20000` (万) renders the
rescaled 亿 form even though `v` is less than 10,000, contradicting the
claim's "exactly when v is at least 10,000". -/
theorem spec_c9_cex :
    fmtAmount (Cell.num (-20000)) = "-2.00亿" ∧
    (-20000 : Rat) < 10000 ∧
    fmtAmount (Cell.num (-20000)) ≠ "-20000万" := by
  have habs : (10000 : Rat) ≤ |(-20000 : Rat)| := by
    rw [abs_of_nonpos (by norm_num)]
    norm_num
  have hdiv : (-20000 : Rat) / 10000 = -2 := by norm_num
  have hfmt : fmtAmount (Cell.num (-20000)) = "-2.00亿" := by
    show (if (10000 : Rat) ≤ |(-20000 : Rat)| then fmtFixed 2 ((-20000 : Rat) / 10000) ++ "亿"
          else fmtFixed 0 (-20000 : Rat) ++ "万") = "-2.00亿"
    rw [if_pos habs, hdiv]
    decide
  exact ⟨hfmt, by norm_num, by rw [hfmt]; decide⟩

/-- C9 (amended): `_fmt_mv` rescales into 亿 (two decimal places on
`v / 10000`) exactly when `v ≥ 10000` and renders the base unit
otherwise; `_fmt_amount` rescales exactly when `|v| ≥ 10000` — also for
large negative amounts, which is where the original claim fails —
rendering the base unit with zero decimals otherwise; a missing value
renders as `"-"`. -/
theorem spec_c9 (v : Rat) :
    fmtAmount (Cell.num v) =
      (if 10000 ≤ |v| then fmtFixed 2 (v / 10000) ++ "亿" else fmtFixed 0 v ++ "万") ∧
    fmtMv (Cell.num v) =
      (if 10000 ≤ v then fmtFixed 2 (v / 10000) ++ " 亿元" else fmtFixed 2 v ++ " 万元") ∧
    ((∃ s, fmtAmount (Cell.num v) = s ++ "亿") ↔ 10000 ≤ |v|) ∧
    ((∃ s, fmtMv (Cell.num v) = s ++ " 亿元") ↔ 10000 ≤ v) ∧
    fmtAmount Cell.null = "-" ∧ fmtMv Cell.null = "-" := by
  have ea : fmtAmount (Cell.num v) =
      (if 10000 ≤ |v| then fmtFixed 2 (v / 10000) ++ "亿" else fmtFixed 0 v ++ "万") := rfl
  have em : fmtMv (Cell.num v) =
      (if 10000 ≤ v then fmtFixed 2 (v / 10000) ++ " 亿元" else fmtFixed 2 v ++ " 万元") := rfl
  refine ⟨ea, em, ?_, ?_, rfl, rfl⟩
  · constructor
    · rintro ⟨s, hs⟩
      by_contra hlt
      rw [if_neg hlt] at ea
      rw [ea] at hs
      have ha := suffix_char (fmtFixed 0 v) "万" 0 '万' (by decide) (by decide)
      rw [hs] at ha
      have hb := suffix_char s "亿" 0 '亿' (by decide) (by decide)
      exact absurd (ha.symm.trans hb) (by decide)
    · intro hge
      rw [if_pos hge] at ea
      exact ⟨fmtFixed 2 (v / 10000), ea⟩
  · constructor
    · rintro ⟨s, hs⟩
      by_contra hlt
      rw [if_neg hlt] at em
      rw [em] at hs
      have ha := suffix_char (fmtFixed 2 v) " 万元" 1 '万' (by decide) (by decide)
      rw [hs] at ha
      have hb := suffix_char s " 亿元" 1 '亿' (by decide) (by decide)
      exact absurd (ha.symm.trans hb) (by decide)
    · intro hge
      rw [if_pos hge] at em
      exact ⟨fmtFixed 2 (v / 10000), em⟩
